import Mathlib

/-!
# Verification of the chat-in-a-nutshell terminal chat client

A shallow embedding, in Lean 4, of the parts of the repository that the
specification's claims are about:

* the OpenAI-style provider adapter (request shaping and model listing),
  from src/chat/providers/openai_provider.py;
* the Claude-style provider adapter (extended-thinking configuration),
  from src/chat/providers/anthropic_provider.py;
* the tool-protocol (MCP) client, from src/chat/mcp_client.py;
* the CLI entry point's signal/exit-code handling, from src/chat_provider.py;
* the Chatbot core's input validation, bounded tool-calling recursion,
  top-level chat wrapper and configuration loading.  The current Chatbot
  class (async factory Chatbot.create, _validate_inputs,
  _send_provider_request, the exception-catching chat method) is referenced
  by src/chat_provider.py and src/tests/test_chatbot.py but its source is
  not part of the snapshot (src/chat/chat.py holds an older, synchronous
  Chatbot that none of those callers can use); those operations are
  modelled from the specification, as marked on each definition.

Numeric conventions: Python floats are modelled as exact rationals; the
only float arithmetic the claims touch is max_tokens * 0.5 and
max_tokens * 0.9 followed by int(), modelled as the rational product
followed by Int.floor (int() truncates toward zero, which on these
non-negative products is the floor; at the magnitudes the claims cite the
binary-float product and the exact product truncate to the same integer).
-/

/-- Domain error kinds from src/chat/exceptions.py, restricted to the
constructors the claims distinguish.  Message payloads are elided: no claim
inspects an error message carried by an exception object. -/
inductive ChatErr where
  | chatConfig
  | provider
  | responseFormat
  | toolLoad
  | other
deriving DecidableEq, Repr

/-- Python values, as far as the validated inputs need them: strings,
integers, floats (exact rationals), booleans, lists and None. -/
inductive PyVal where
  | str (s : String)
  | int (n : Int)
  | float (q : ℚ)
  | bool (b : Bool)
  | list (xs : List PyVal)
  | none

/-- isinstance(v, str). -/
def PyVal.isStr : PyVal → Bool
  | .str _ => true
  | _ => false

/-- isinstance(v, list). -/
def PyVal.isList : PyVal → Bool
  | .list _ => true
  | _ => false

/-- Helper for the substring test: does the needle occur as a contiguous
run anywhere in the haystack? -/
def containsAux (needle : List Char) : List Char → Bool
  | [] => needle.isEmpty
  | c :: rest => needle.isPrefixOf (c :: rest) || containsAux needle rest

/-- Python's substring test `needle in haystack`, on code points. -/
def strContains (haystack needle : String) : Bool :=
  containsAux needle.toList haystack.toList

/-- Python's str.lower(), as a per-character lowercase map. -/
def strLower (s : String) : String := ⟨s.data.map Char.toLower⟩

/-- Python's s.startswith(p), on code points. -/
def strStartsWith (s p : String) : Bool := p.toList.isPrefixOf s.toList

/-- Truthiness of an optional Python string (`if s:` is false exactly for
None and the empty string). -/
def optStrTruthy : Option String → Bool
  | Option.none => false
  | some s => s ≠ ""

/-! ## OpenAI-style adapter: request shaping
From OpenAIProvider.send_request, src/chat/providers/openai_provider.py
lines 102-117.  Only the request fields the claims talk about are carried;
messages and tools pass through the function uninspected by these claims. -/

/-- The outbound OpenAI request fields shaped by lines 105-117: optional
temperature, optional reasoning_effort, and max_completion_tokens. -/
structure OAIRequest where
  model : String
  maxCompletionTokens : Nat
  temperature : Option ℚ
  reasoningEffort : Option String
deriving DecidableEq, Repr

/-- Line 103: `model.startswith('o') and len(model) > 1 and
model[1].isdigit()` -- the model name starts with the letter o followed by
a digit. -/
def isReasoningModel (model : String) : Bool :=
  match model.toList with
  | 'o' :: c :: _ => c.isDigit
  | _ => false

/-- Lines 105-117 of OpenAIProvider.send_request: build the request-field
record.  temperature is added only when the model is neither a reasoning
model nor one whose name contains "search" (line 112); reasoning_effort is
added, lower-cased, only for a reasoning model when a truthy value was
supplied (line 116); max_completion_tokens is always max_tokens
(line 108). -/
def buildOAIRequest (model : String) (temperature : ℚ) (maxTokens : Nat)
    (reasoningEffort : Option String) : OAIRequest :=
  { model := model
    maxCompletionTokens := maxTokens
    temperature :=
      if !isReasoningModel model && !strContains model "search" then
        some temperature
      else
        Option.none
    reasoningEffort :=
      if isReasoningModel model && optStrTruthy reasoningEffort then
        (reasoningEffort.map strLower)
      else
        Option.none }

/-! ## OpenAI-style adapter: model listing
From OpenAIProvider.list_models, src/chat/providers/openai_provider.py
lines 236-248. -/

/-- One entry of the provider's model catalog; only the identifier is read
by the filter, the sort and the claims. -/
structure OAIModel where
  id : String
deriving DecidableEq, Repr

/-- Line 240: `any(prefix in model.id for prefix in ['gpt-', 'o1-', 'o3-',
'o4-'])` -- a substring (containment) test, not a startswith test. -/
def oaiKeepPattern (m : OAIModel) : Bool :=
  ["gpt-", "o1-", "o3-", "o4-"].any (fun p => strContains m.id p)

/-- Line 241: none of the excluded fragments occurs in the identifier. -/
def oaiExcludePattern (m : OAIModel) : Bool :=
  ["realtime", "audio", "transcribe", "tts", "image", "pro",
    "deep-research"].any (fun p => strContains m.id p)

/-- Lines 238-242 and 248: the retained catalog entries, sorted by
identifier. -/
def chatModels (models : List OAIModel) : List OAIModel :=
  (models.filter (fun m => oaiKeepPattern m && !oaiExcludePattern m)).mergeSort
    (fun a b => a.id ≤ b.id)

/-- The filter the specification's words describe: identifiers that START
WITH one of the four prefixes (and avoid the excluded fragments).  Written
from the claim text, to be compared with the source's chatModels. -/
def chatModelsSpec (models : List OAIModel) : List OAIModel :=
  (models.filter (fun m =>
    (["gpt-", "o1-", "o3-", "o4-"].any (fun p => strStartsWith m.id p))
      && !oaiExcludePattern m)).mergeSort (fun a b => a.id ≤ b.id)

/-- Lines 244-245 plus the table rendering: if the filtered set is empty
the literal fallback string is returned, otherwise the table produced from
the filtered, sorted entries.  The table layout itself (lines 250-280) is
irrelevant to every claim and is abstracted as the `render` argument. -/
def listModelsOutput (render : List OAIModel → String)
    (models : List OAIModel) : String :=
  let cms := chatModels models
  if cms.isEmpty then "No chat models available." else render cms

/-! ## Claude-style adapter: extended-thinking request shaping
From AnthropicProvider.send_request, src/chat/providers/anthropic_provider.py
lines 58-98.  The message normalization for thinking mode (lines 70-89)
and the tool translation (lines 110-125) are not inspected by any claim
and are left out of the request record. -/

/-- The thinking configuration dict of lines 64-67:
`{"type": "enabled", "budget_tokens": ...}`. -/
structure ThinkingConfig where
  budgetTokens : Int
deriving DecidableEq, Repr

/-- The outbound Anthropic request fields of lines 94-107 that the claims
read: temperature, max_tokens and the optional thinking configuration. -/
structure AnthropicRequest where
  model : String
  temperature : ℚ
  maxTokens : Nat
  thinking : Option ThinkingConfig
deriving DecidableEq, Repr

/-- Line 61: `reasoning_effort and reasoning_effort.lower() in
['medium', 'high']`. -/
def shouldUseThinking (reasoningEffort : Option String) : Bool :=
  match reasoningEffort with
  | Option.none => false
  | some e => e ≠ "" && (strLower e = "medium" || strLower e = "high")

/-- Line 63: `{'medium': int(max_tokens * 0.5), 'high': int(max_tokens *
0.9)}` looked up at the lower-cased effort (the dict-lookup default at
line 66 is unreachable because line 61 already confined the key to the two
entries).  int() of these non-negative float products is modelled as the
rational floor. -/
def thinkingBudget (effort : String) (maxTokens : Nat) : Int :=
  if strLower effort = "medium" then ⌊(maxTokens : ℚ) * (1/2)⌋
  else ⌊(maxTokens : ℚ) * (9/10)⌋

/-- Lines 58-107 of AnthropicProvider.send_request: the request-field
record.  With thinking enabled the temperature is forced to 1.0 (line 92)
and the thinking configuration is attached (lines 106-107); otherwise the
caller-supplied temperature is used and no thinking field is sent. -/
def buildAnthropicRequest (model : String) (temperature : ℚ) (maxTokens : Nat)
    (reasoningEffort : Option String) : AnthropicRequest :=
  let think := shouldUseThinking reasoningEffort
  { model := model
    temperature := if think then 1 else temperature
    maxTokens := maxTokens
    thinking :=
      if think then
        some { budgetTokens :=
                thinkingBudget (reasoningEffort.getD "") maxTokens }
      else
        Option.none }

/-! ## Tool-protocol client: call_tool
From MCPClient.call_tool, src/chat/mcp_client.py lines 131-191.  A tool
invocation on a server either produces a (already normalized) content
string or raises, modelled by Except; call_tool itself is a total
function: every exceptional branch of the source returns a result
dictionary instead of propagating. -/

/-- Result status of a tool call: "success", "error" or "cancelled". -/
inductive ToolStatus where
  | success
  | error
  | cancelled
deriving DecidableEq, Repr

/-- The `{content, status}` dictionary that call_tool returns. -/
structure ToolResult where
  content : String
  status : ToolStatus
deriving DecidableEq, Repr

/-- One active server as call_tool sees it: its advertised tool names and
the behavior of `session.call_tool` followed by the content normalization
of lines 156-179 (ok: the normalized content string; error: the message of
the exception raised during confirmation or invocation). -/
structure ActiveServer where
  tools : List String
  behave : String → Except String String

/-- MCPClient.call_tool (lines 131-191).  Scans active servers in order for
the first advertising the tool; asks the optional confirmation callback;
invokes the tool and wraps any raised error into an error result; returns
the not-found error result if no active server advertises the tool. -/
def callTool (servers : List (String × ActiveServer)) (toolName : String)
    (confirm : Option (String → Bool)) : ToolResult :=
  match servers with
  | [] =>
    { content := "Error: Tool '" ++ toolName ++ "' not found in any active server"
      status := .error }
  | (_, srv) :: rest =>
    if srv.tools.any (fun t => t = toolName) then
      match confirm with
      | some cb =>
        if cb toolName then
          match srv.behave toolName with
          | .ok c => { content := c, status := .success }
          | .error m => { content := "Error: " ++ m, status := .error }
        else
          { content := "Tool execution cancelled", status := .cancelled }
      | Option.none =>
        match srv.behave toolName with
        | .ok c => { content := c, status := .success }
        | .error m => { content := "Error: " ++ m, status := .error }
    else
      callTool rest toolName confirm

/-- The first active server (in scan order) advertising the tool; the
shape the loop of line 139 searches for. -/
def findToolServer (servers : List (String × ActiveServer))
    (toolName : String) : Option ActiveServer :=
  (servers.find? (fun p => p.2.tools.any (fun t => t = toolName))).map
    Prod.snd

/-! ## Tool-protocol client: tool cache and get_tools
From MCPClient.connect_to_server (src/chat/mcp_client.py lines 60-129),
get_tools (lines 193-198) and cleanup (lines 200-212).  Python lists are
aliased references, and the claim about get_tools is precisely about
aliasing, so list values live in a small heap: an address is a Nat, the
store maps addresses to list contents, and `next` is the next fresh
address.  The client records the address of its _tools_cache. -/

/-- A cached tool definition (name, description and the nested function
definition built at lines 97-111); its fields are opaque to the cache
claims. -/
structure ToolDef where
  name : String
  description : String
deriving DecidableEq, Repr

/-- The heap of Python list objects: contents per address, plus the next
fresh address. -/
structure ListHeap where
  store : Nat → List ToolDef
  next : Nat

/-- The MCP client state the cache claims read: the active servers in
insertion order (Python dicts preserve insertion order) with their tool
lists, and the address of the _tools_cache list object. -/
structure MCPState where
  activeServers : List (String × List ToolDef)
  cacheAddr : Nat

/-- Write the contents of one heap cell. -/
def ListHeap.write (h : ListHeap) (addr : Nat) (xs : List ToolDef) :
    ListHeap :=
  { h with store := fun a => if a = addr then xs else h.store a }

/-- Allocate a fresh list object with the given contents, returning its
address. -/
def ListHeap.alloc (h : ListHeap) (xs : List ToolDef) : Nat × ListHeap :=
  (h.next, { store := fun a => if a = h.next then xs else h.store a
             next := h.next + 1 })

/-- The `__init__` state of MCPClient (lines 24-28): no active servers and
an empty _tools_cache list object. -/
def mcpInit : ListHeap × MCPState :=
  ({ store := fun _ => [], next := 1 }, { activeServers := [], cacheAddr := 0 })

/-- The successful tail of connect_to_server (lines 113-125): record the
new server's session and tools (a dict insertion: existing keys keep their
order, a genuinely new key is appended), then rebuild the cache --
`self._tools_cache = []` binds a FRESH list object (line 119) which is then
extended with every active server's tools in order (lines 120-121).
A repeated connect to an already-active server never reaches this code
(line 66 returns early). -/
def connectSuccess (hs : ListHeap × MCPState) (name : String)
    (tools : List ToolDef) : ListHeap × MCPState :=
  let (h, s) := hs
  if s.activeServers.any (fun p => p.1 = name) then (h, s)
  else
    let active := s.activeServers ++ [(name, tools)]
    let (addr, h1) := h.alloc ((active.map Prod.snd).flatten)
    (h1, { activeServers := active, cacheAddr := addr })

/-- MCPClient.cleanup (lines 200-212): `self.active_servers.clear()` and
`self._tools_cache.clear()` -- the cache list object is emptied in place,
its identity unchanged. -/
def mcpCleanup (hs : ListHeap × MCPState) : ListHeap × MCPState :=
  let (h, s) := hs
  (h.write s.cacheAddr [], { s with activeServers := [] })

/-- MCPClient.get_tools (lines 193-198): `return self._tools_cache.copy()`
-- a fresh list object holding the cache's current contents.  The client
state itself is untouched; the new address is handed to the caller. -/
def mcpGetTools (hs : ListHeap × MCPState) : Nat × (ListHeap × MCPState) :=
  let (h, s) := hs
  let (addr, h1) := h.alloc (h.store s.cacheAddr)
  (addr, (h1, s))

/-- The client operations a caller can interleave.  `connect name tools`
is a successful connection handing the listed tools; `connectNoop` covers
a connect that fails or is a repeat (unconfigured name, transport or
handshake exception -- all return before any state change) and call_tool,
which never touches the cache; `getToolsMutate xs` calls get_tools and
then the caller overwrites the returned list object with xs; `cleanup`
is cleanup. -/
inductive MCPOp where
  | connect (name : String) (tools : List ToolDef)
  | connectNoop
  | getToolsMutate (xs : List ToolDef)
  | cleanup

/-- One step of the client model. -/
def mcpStep (hs : ListHeap × MCPState) : MCPOp → ListHeap × MCPState
  | .connect name tools => connectSuccess hs name tools
  | .connectNoop => hs
  | .getToolsMutate xs =>
    let (addr, hs1) := mcpGetTools hs
    (hs1.1.write addr xs, hs1.2)
  | .cleanup => mcpCleanup hs

/-- Run a sequence of operations from the freshly constructed client. -/
def mcpRun (ops : List MCPOp) : ListHeap × MCPState :=
  ops.foldl mcpStep mcpInit

/-- The contents of the client's cached tool list. -/
def cacheContents (hs : ListHeap × MCPState) : List ToolDef :=
  hs.1.store hs.2.cacheAddr

/-! ## CLI entry point: signals and exit codes
From main and async_main, src/chat_provider.py lines 431-496.  The
exceptional control flow is modelled by the point at which async_main's
try-body stops: it either completes, or an exception (KeyboardInterrupt
from the SIGINT handler, SystemExit from the SIGTERM handler, or any other
error) is raised before or after the line `chatbot = await
initialize_chatbot(args)` has bound the local variable `chatbot`.  The
`finally` block (lines 478-480) evaluates `chatbot.mcp_client`; when
`chatbot` was never bound this itself raises UnboundLocalError, which
replaces the in-flight exception (Python finally semantics).  Normal
completion always has `chatbot` bound, since every return comes after
line 442. -/

/-- The kind of exception that ends async_main's try-body. -/
inductive ExnKind where
  | keyboardInterrupt
  | systemExit
  | otherError
deriving DecidableEq, Repr

/-- How one invocation's async_main body stops. -/
inductive Scenario where
  | completes
  | raisedBeforeChatbotBound (k : ExnKind)
  | raisedAfterChatbotBound (k : ExnKind)
deriving DecidableEq, Repr

/-- What asyncio.run(async_main()) delivers to main: the body's outcome
filtered through the finally block of lines 478-480.  With `chatbot`
unbound, the finally block's attribute access raises UnboundLocalError (a
plain Exception), masking the original exception. -/
def asyncMainOutcome : Scenario → Option ExnKind
  | .completes => Option.none
  | .raisedAfterChatbotBound k => some k
  | .raisedBeforeChatbotBound _ => some .otherError

/-- signal.SIGTERM on the target platform (Linux). -/
def SIGTERM : Nat := 15

/-- main (lines 482-496): exit code 0 on normal completion (os.EX_OK) and
on KeyboardInterrupt, 128 + SIGTERM on SystemExit, 1 on any other
exception. -/
def mainExitCode (s : Scenario) : Nat :=
  match asyncMainOutcome s with
  | Option.none => 0
  | some .keyboardInterrupt => 0
  | some .systemExit => 128 + SIGTERM
  | some .otherError => 1

/-! ## Chatbot core (modelled from the spec)
The current Chatbot class is referenced by src/chat_provider.py
(await Chatbot.create, await chatbot.chat, chatbot.mcp_client) and by
src/tests/test_chatbot.py (Chatbot._validate_inputs raising
ChatConfigError), but its source file is not part of the snapshot: the
chat.py present is an older synchronous class without those members.  The
definitions below are therefore modelled from the specification
(spec.md sections 4.9 and 3), as marked on each. -/

/-- Modelled from the spec: Chatbot._validate_inputs, whose source is
missing from the snapshot (src/tests/test_chatbot.py calls it; spec
section 4.9: a pure function that raises ChatConfigError if the system
prompt is not a string, if the message list is not a list, if any element
of the message list is not a string, or if max_tokens is not a positive
integer). -/
def validateInputs (system userAssistant maxTokens : PyVal) :
    Except ChatErr Unit :=
  if !system.isStr then .error .chatConfig
  else
    match userAssistant with
    | .list xs =>
      if !xs.all PyVal.isStr then .error .chatConfig
      else
        match maxTokens with
        | .int n => if 0 < n then .ok () else .error .chatConfig
        | _ => .error .chatConfig
    | _ => .error .chatConfig

/-- What one provider response carries back to the tool loop, as far as
the loop's control flow reads it: the final content and token count, and
the optional tool_info whose presence makes the loop recurse. -/
structure ProviderResp where
  content : String
  tokens : Nat
  toolCallNames : Option (List String)

/-- Modelled from the spec: Chatbot._send_provider_request, whose source
is missing from the snapshot (spec section 4.9: initial depth 0, hard
ceiling 10, raises ProviderError if the ceiling is reached; no tool_info
returns the (content, tokens) pair; tool_info with no initialized
tool-protocol client raises ProviderError; otherwise every requested tool
call is executed -- failures folded into inline error results, never
propagated -- and the loop recurses at depth + 1).  The provider adapter
is abstracted as an oracle giving the response to the request issued at
each depth; tool execution results do not influence control flow and are
dropped. -/
def sendProviderRequest (oracle : Nat → ProviderResp) (hasToolClient : Bool)
    (depth : Nat) : Except ChatErr (String × Nat) :=
  if _hceil : 10 ≤ depth then .error .provider
  else
    let resp := oracle depth
    match resp.toolCallNames with
    | Option.none => .ok (resp.content, resp.tokens)
    | some _ =>
      if hasToolClient then
        sendProviderRequest oracle hasToolClient (depth + 1)
      else
        .error .provider
termination_by 10 - depth
decreasing_by simp_wf; omega

/-- Modelled from the spec: Chatbot.chat_with_provider, whose source is
missing from the snapshot (spec section 4.9: validates inputs, then drives
_send_provider_request, which starts at depth 0). -/
def chatWithProvider (oracle : Nat → ProviderResp) (hasToolClient : Bool)
    (system userAssistant maxTokens : PyVal) : Except ChatErr (String × Nat) := do
  _ ← validateInputs system userAssistant maxTokens
  sendProviderRequest oracle hasToolClient 0

/-- The error-kind name logged and rendered by the chat wrapper's handler
("logged with its error kind, and converted into a returned string"). -/
def chatErrKindName : ChatErr → String
  | .chatConfig => "ChatConfigError"
  | .provider => "ProviderError"
  | .responseFormat => "ResponseFormatError"
  | .toolLoad => "ToolLoadError"
  | .other => "Exception"

/-- Modelled from the spec: the Chatbot.chat wrapper, whose source is
missing from the snapshot (spec sections 4.9 and 7: delegates to
chat_with_provider and catches ANY exception raised along the path,
converting it into a logged message and a returned string).  The result
type Except ChatErr String mirrors a callee that may raise; the catch-all
handler is the match on the delegated call's outcome. -/
def chatOp (oracle : Nat → ProviderResp) (hasToolClient : Bool)
    (system userAssistant maxTokens : PyVal) : Except ChatErr String :=
  match chatWithProvider oracle hasToolClient system userAssistant maxTokens with
  | .ok (content, _tokens) => .ok content
  | .error e => .ok (chatErrKindName e)

/-! ## Chatbot core: configuration loading and defaults
(modelled from the spec, sections 4.9 and 3). -/

/-- The three states the persisted configuration file can be in when the
Chatbot is constructed. -/
inductive ConfigFile where
  | absent
  | malformedJSON
  | parsed (record : List (String × PyVal))

/-- Modelled from the spec: the configuration-load step of the missing
Chatbot construction path (spec section 4.9: the record is "created with
defaults if the file is absent or contains malformed JSON"; defaults live
in the read accessors, which fall back field by field). -/
def loadConfig : ConfigFile → List (String × PyVal)
  | .absent => []
  | .malformedJSON => []
  | .parsed record => record

/-- The in-memory Chatbot state the configuration claims read. -/
structure ChatbotState where
  config : List (String × PyVal)

/-- Modelled from the spec: the asynchronous factory Chatbot.create, whose
source is missing from the snapshot (spec section 4.9: loads persisted
configuration, resolves the provider -- explicit override else persisted
value else the default "openai" -- and raises ChatConfigError for any
unrecognized provider name). -/
def createChatbot (file : ConfigFile) (override : Option String) :
    Except ChatErr ChatbotState :=
  let config := loadConfig file
  let provider :=
    override.getD (match config.lookup "provider" with
      | some (.str s) => s
      | _ => "openai")
  if provider = "openai" || provider = "anthropic" then
    .ok { config := config }
  else
    .error .chatConfig

/-- Read accessor with a documented default: config.get(key, default). -/
def cfgGet (s : ChatbotState) (key : String) (dflt : PyVal) : PyVal :=
  (s.config.lookup key).getD dflt

/-- Modelled from the spec: the model accessor (default "gpt-3.5-turbo"). -/
def ChatbotState.model (s : ChatbotState) : PyVal :=
  cfgGet s "model" (.str "gpt-3.5-turbo")

/-- Modelled from the spec: the temperature accessor (default 0.0). -/
def ChatbotState.temperature (s : ChatbotState) : PyVal :=
  cfgGet s "temperature" (.float 0)

/-- Modelled from the spec: the provider accessor (default "openai"). -/
def ChatbotState.provider (s : ChatbotState) : PyVal :=
  cfgGet s "provider" (.str "openai")

/-- Modelled from the spec: the max_tokens accessor (default 4096). -/
def ChatbotState.maxTokens (s : ChatbotState) : PyVal :=
  cfgGet s "max_tokens" (.int 4096)

/-! ## Concrete instances used by the witnesses -/

/-- A provider oracle whose every response requests another tool call. -/
def alwaysToolOracle : Nat → ProviderResp :=
  fun _ => { content := "", tokens := 0, toolCallNames := some ["run_shell"] }

/-- A one-server client: the server advertises the tool "echo", and every
invocation of it raises with message "boom". -/
def demoServer : ActiveServer :=
  { tools := ["echo"], behave := fun _ => .error "boom" }

/-- The active-server list holding just demoServer. -/
def demoServers : List (String × ActiveServer) := [("demo", demoServer)]

/-! ## Theorems -/

/-- C4: In the OpenAI-style adapter's request shaping, for every model
name starting with the letter o followed by a digit the outbound request
omits temperature and includes the lower-cased reasoning_effort (as
supplied by the caller; Python treats None and the empty string as
absent); temperature is also omitted for any model name containing
"search"; every other model receives the caller-supplied temperature; and
max_completion_tokens is always set to max_tokens. -/
theorem openai_request_shaping (model : String) (temperature : ℚ)
    (maxTokens : Nat) (reasoningEffort : Option String) :
    (∀ e, isReasoningModel model = true → reasoningEffort = some e → e ≠ "" →
      (buildOAIRequest model temperature maxTokens reasoningEffort).temperature
          = Option.none ∧
        (buildOAIRequest model temperature maxTokens
          reasoningEffort).reasoningEffort = some (strLower e)) ∧
    (strContains model "search" = true →
      (buildOAIRequest model temperature maxTokens reasoningEffort).temperature
        = Option.none) ∧
    (isReasoningModel model = false → strContains model "search" = false →
      (buildOAIRequest model temperature maxTokens reasoningEffort).temperature
        = some temperature) ∧
    (buildOAIRequest model temperature maxTokens
      reasoningEffort).maxCompletionTokens = maxTokens := by
  refine ⟨?_, ?_, ?_, rfl⟩
  · intro e hr he hne
    subst he
    simp [buildOAIRequest, hr, optStrTruthy, hne]
  · intro hs
    simp [buildOAIRequest, hs]
  · intro hr hs
    simp [buildOAIRequest, hr, hs]

/-- Witness for C4 at concrete inputs: the reasoning model "o3-mini" with
effort "Low", the plain model "gpt-4.1", and the search model
"gpt-4o-search-preview". -/
theorem openai_request_shaping_witness :
    (buildOAIRequest "o3-mini" (7/10) 100 (some "Low")).temperature
        = Option.none ∧
    (buildOAIRequest "o3-mini" (7/10) 100 (some "Low")).reasoningEffort
        = some "low" ∧
    (buildOAIRequest "gpt-4.1" (7/10) 100 (some "Low")).temperature
        = some (7/10) ∧
    (buildOAIRequest "gpt-4o-search-preview" (7/10) 100
        (some "Low")).temperature = Option.none ∧
    (buildOAIRequest "o3-mini" (7/10) 100 (some "Low")).maxCompletionTokens
        = 100 := by
  refine ⟨?_, ?_, ?_, ?_, ?_⟩
  · exact ((openai_request_shaping "o3-mini" (7/10) 100 (some "Low")).1 "Low"
      (by decide) rfl (by decide)).1
  · have h := ((openai_request_shaping "o3-mini" (7/10) 100 (some "Low")).1
      "Low" (by decide) rfl (by decide)).2
    rw [show strLower "Low" = "low" from by decide] at h
    exact h
  · exact (openai_request_shaping "gpt-4.1" (7/10) 100 (some "Low")).2.2.1
      (by decide) (by decide)
  · exact (openai_request_shaping "gpt-4o-search-preview" (7/10) 100
      (some "Low")).2.1 (by decide)
  · exact (openai_request_shaping "o3-mini" (7/10) 100 (some "Low")).2.2.2

/-- C5: In the Claude-style adapter, a reasoning_effort equal
case-insensitively to "medium" or "high" enables extended thinking with a
budget of int(max_tokens * 0.5) resp. int(max_tokens * 0.9) and forces the
outbound temperature to 1.0; for "low" or an absent reasoning_effort the
caller-supplied temperature is used and no thinking configuration is
sent. -/
theorem anthropic_thinking_shaping (model : String) (temperature : ℚ)
    (maxTokens : Nat) :
    (∀ e, strLower e = "medium" →
      buildAnthropicRequest model temperature maxTokens (some e) =
        { model := model, temperature := 1, maxTokens := maxTokens
          thinking := some ⟨⌊(maxTokens : ℚ) * (1/2)⌋⟩ }) ∧
    (∀ e, strLower e = "high" →
      buildAnthropicRequest model temperature maxTokens (some e) =
        { model := model, temperature := 1, maxTokens := maxTokens
          thinking := some ⟨⌊(maxTokens : ℚ) * (9/10)⌋⟩ }) ∧
    (∀ e, strLower e = "low" →
      buildAnthropicRequest model temperature maxTokens (some e) =
        { model := model, temperature := temperature, maxTokens := maxTokens
          thinking := Option.none }) ∧
    buildAnthropicRequest model temperature maxTokens Option.none =
      { model := model, temperature := temperature, maxTokens := maxTokens
        thinking := Option.none } := by
  refine ⟨?_, ?_, ?_, ?_⟩
  · intro e he
    have hne : e ≠ "" := by
      intro h0
      rw [h0] at he
      exact absurd he (by decide)
    simp [buildAnthropicRequest, shouldUseThinking, thinkingBudget, he, hne]
  · intro e he
    have hne : e ≠ "" := by
      intro h0
      rw [h0] at he
      exact absurd he (by decide)
    have hnm : ¬ strLower e = "medium" := by
      rw [he]; decide
    simp [buildAnthropicRequest, shouldUseThinking, thinkingBudget, he, hne,
      hnm]
  · intro e he
    have h1 : ¬ strLower e = "medium" := by rw [he]; decide
    have h2 : ¬ strLower e = "high" := by rw [he]; decide
    simp [buildAnthropicRequest, shouldUseThinking, h1, h2]
  · simp [buildAnthropicRequest, shouldUseThinking]

/-- Witness for C5 at the claim's cited numbers: effort "high" with
max_tokens 1000 gives budget 900 and temperature 1.0; also "MEDIUM" with
1000 gives 500, and "low" leaves the caller's temperature. -/
theorem anthropic_thinking_shaping_witness :
    buildAnthropicRequest "claude-sonnet-4-0" (3/10) 1000 (some "high") =
      { model := "claude-sonnet-4-0", temperature := 1, maxTokens := 1000
        thinking := some ⟨900⟩ } ∧
    buildAnthropicRequest "claude-sonnet-4-0" (3/10) 1000 (some "MEDIUM") =
      { model := "claude-sonnet-4-0", temperature := 1, maxTokens := 1000
        thinking := some ⟨500⟩ } ∧
    buildAnthropicRequest "claude-sonnet-4-0" (3/10) 1000 (some "low") =
      { model := "claude-sonnet-4-0", temperature := 3/10, maxTokens := 1000
        thinking := Option.none } := by
  refine ⟨?_, ?_, ?_⟩
  · have h := (anthropic_thinking_shaping "claude-sonnet-4-0" (3/10)
      1000).2.1 "high" (by decide)
    rw [h]
    norm_num
  · have h := (anthropic_thinking_shaping "claude-sonnet-4-0" (3/10)
      1000).1 "MEDIUM" (by decide)
    rw [h]
    norm_num
  · exact (anthropic_thinking_shaping "claude-sonnet-4-0" (3/10)
      1000).2.2.1 "low" (by decide)

/-- C7 counterexample: the source filter at line 240 of
openai_provider.py is a substring test, not a startswith test.  On the
one-entry catalog ["chatgpt-4o-latest"] (which contains "gpt-" but does
not start with any of the four prefixes, and contains no excluded
fragment) the code retains the entry while the claim's startswith filter
retains nothing. -/
theorem openai_model_filter_counterexample :
    chatModels [⟨"chatgpt-4o-latest"⟩] = [⟨"chatgpt-4o-latest"⟩] ∧
    chatModelsSpec [⟨"chatgpt-4o-latest"⟩] = [] ∧
    chatModels [⟨"chatgpt-4o-latest"⟩] ≠ chatModelsSpec [⟨"chatgpt-4o-latest"⟩] := by
  have h1 : chatModels [⟨"chatgpt-4o-latest"⟩] =
      ([⟨"chatgpt-4o-latest"⟩] : List OAIModel).mergeSort
        (fun a b => a.id ≤ b.id) := by
    unfold chatModels
    congr 1
  have h2 : chatModelsSpec [⟨"chatgpt-4o-latest"⟩] =
      ([] : List OAIModel).mergeSort (fun a b => a.id ≤ b.id) := by
    unfold chatModelsSpec
    congr 1
  rw [h1, h2, List.mergeSort_singleton, List.mergeSort_nil]
  refine ⟨rfl, rfl, by simp⟩

/-- C7 (amended): the OpenAI-style adapter's model listing retains
exactly the catalog entries whose identifier CONTAINS "gpt-", "o1-",
"o3-" or "o4-" as a substring and does not contain any excluded fragment,
sorts the retained entries by identifier, and returns "No chat models
available." when the filtered set is empty. -/
theorem openai_model_listing_amended (models : List OAIModel) :
    (∀ m, m ∈ chatModels models ↔
      m ∈ models ∧ oaiKeepPattern m = true ∧ oaiExcludePattern m = false) ∧
    List.Pairwise (fun a b : OAIModel => a.id ≤ b.id) (chatModels models) ∧
    (chatModels models = [] →
      ∀ render, listModelsOutput render models = "No chat models available.") := by
  refine ⟨?_, ?_, ?_⟩
  · intro m
    simp [chatModels, List.mem_mergeSort, List.mem_filter, and_assoc]
  · have h := @List.sorted_mergeSort OAIModel
      (fun a b : OAIModel => decide (a.id ≤ b.id))
      (fun a b c hab hbc => by
        simp only [decide_eq_true_eq] at *
        exact le_trans hab hbc)
      (fun a b => by
        simp only [Bool.or_eq_true, decide_eq_true_eq]
        exact le_total a.id b.id)
      (models.filter (fun m => oaiKeepPattern m && !oaiExcludePattern m))
    simp only [decide_eq_true_eq] at h
    exact h
  · intro hempty render
    simp [listModelsOutput, hempty]

/-- Witness for C7 (amended) on one-entry catalogs: "whisper-1" is
filtered out and the fallback string is returned; "chatgpt-4o-latest"
is retained. -/
theorem openai_model_listing_amended_witness :
    listModelsOutput (fun _ => "TABLE") [⟨"whisper-1"⟩]
        = "No chat models available." ∧
    (⟨"chatgpt-4o-latest"⟩ : OAIModel) ∈ chatModels [⟨"chatgpt-4o-latest"⟩] := by
  constructor
  · have hempty : chatModels [⟨"whisper-1"⟩] = [] := by
      have h : chatModels [⟨"whisper-1"⟩] =
          ([] : List OAIModel).mergeSort (fun a b => a.id ≤ b.id) := by
        unfold chatModels
        congr 1
      rw [h, List.mergeSort_nil]
    exact (openai_model_listing_amended [⟨"whisper-1"⟩]).2.2 hempty
      (fun _ => "TABLE")
  · exact ((openai_model_listing_amended [⟨"chatgpt-4o-latest"⟩]).1
      ⟨"chatgpt-4o-latest"⟩).mpr ⟨by simp, by decide, by decide⟩

/-- C9: the CLI exit codes (src/chat_provider.py lines 482-496).  Normal
completion exits 0; an interrupt or termination signal arriving AFTER the
chatbot local variable is bound exits 0 resp. 128 + SIGTERM; an unexpected
error exits 1.  But an interrupt arriving BEFORE chatbot construction
completes exits 1, not 0 as the claim states: the finally block at lines
478-480 evaluates the unbound local `chatbot`, raising UnboundLocalError,
which masks the KeyboardInterrupt and is caught by the generic Exception
arm (spec.md section 9 notes exactly this latent bug). -/
theorem cli_exit_codes :
    mainExitCode .completes = 0 ∧
    mainExitCode (.raisedAfterChatbotBound .keyboardInterrupt) = 0 ∧
    mainExitCode (.raisedAfterChatbotBound .systemExit) = 128 + SIGTERM ∧
    mainExitCode (.raisedAfterChatbotBound .otherError) = 1 ∧
    mainExitCode (.raisedBeforeChatbotBound .keyboardInterrupt) = 1 := by
  decide

/-- C6: MCPClient.call_tool is total (never raises).  A tool name
advertised by no active server yields the not-found error result; a
confirmation callback returning false for an advertised tool yields the
cancelled result (without invoking the tool: the result is independent of
every server's behavior); and a failure raised during invocation is
returned as an error result carrying the failure message. -/
theorem call_tool_results (servers : List (String × ActiveServer))
    (toolName : String) (confirm : Option (String → Bool)) :
    (findToolServer servers toolName = Option.none →
      callTool servers toolName confirm =
        { content := "Error: Tool '" ++ toolName ++
            "' not found in any active server"
          status := .error }) ∧
    (∀ srv cb, findToolServer servers toolName = some srv →
      confirm = some cb → cb toolName = false →
      callTool servers toolName confirm =
        { content := "Tool execution cancelled", status := .cancelled }) ∧
    (∀ srv m, findToolServer servers toolName = some srv →
      (confirm = Option.none ∨ ∃ cb, confirm = some cb ∧ cb toolName = true) →
      srv.behave toolName = .error m →
      callTool servers toolName confirm =
        { content := "Error: " ++ m, status := .error }) := by
  induction servers with
  | nil =>
    refine ⟨fun _ => rfl, ?_, ?_⟩
    · intro srv cb hfind
      simp [findToolServer] at hfind
    · intro srv m hfind
      simp [findToolServer] at hfind
  | cons hd rest ih =>
    obtain ⟨name0, srv0⟩ := hd
    by_cases hadv : srv0.tools.any (fun t => t = toolName) = true
    · have hfind : findToolServer ((name0, srv0) :: rest) toolName = some srv0 := by
        simp [findToolServer, List.find?_cons_of_pos, hadv]
      refine ⟨?_, ?_, ?_⟩
      · intro hnone
        rw [hfind] at hnone
        exact absurd hnone (by simp)
      · intro srv cb hf hc hcb
        rw [hfind] at hf
        subst hc
        simp [callTool, hadv, hcb]
      · intro srv m hf hconfirm hbeh
        rw [hfind] at hf
        injection hf with hf
        subst hf
        rcases hconfirm with hnoneC | ⟨cb, hcb, hcbt⟩
        · subst hnoneC
          simp [callTool, hadv, hbeh]
        · subst hcb
          simp [callTool, hadv, hcbt, hbeh]
    · have hfind : findToolServer ((name0, srv0) :: rest) toolName =
          findToolServer rest toolName := by
        simp [findToolServer, List.find?_cons_of_neg, hadv]
      have hstep : callTool ((name0, srv0) :: rest) toolName confirm =
          callTool rest toolName confirm := by
        simp [callTool, hadv]
      refine ⟨?_, ?_, ?_⟩
      · intro hnone
        rw [hfind] at hnone
        rw [hstep]
        exact ih.1 hnone
      · intro srv cb hf hc hcb
        rw [hfind] at hf
        rw [hstep]
        exact ih.2.1 srv cb hf hc hcb
      · intro srv m hf hconfirm hbeh
        rw [hfind] at hf
        rw [hstep]
        exact ih.2.2 srv m hf hconfirm hbeh

/-- Witness for C6 on demoServers: a missing tool gives the not-found
error result, a declining callback cancels, and the raising invocation of
"echo" is folded into an error result. -/
theorem call_tool_results_witness :
    callTool demoServers "list_files" Option.none =
      { content := "Error: Tool 'list_files' not found in any active server"
        status := .error } ∧
    callTool demoServers "echo" (some (fun _ => false)) =
      { content := "Tool execution cancelled", status := .cancelled } ∧
    callTool demoServers "echo" Option.none =
      { content := "Error: boom", status := .error } := by
  refine ⟨?_, ?_, ?_⟩
  · exact (call_tool_results demoServers "list_files" Option.none).1 rfl
  · exact (call_tool_results demoServers "echo"
      (some (fun _ => false))).2.1 demoServer (fun _ => false) rfl rfl rfl
  · exact (call_tool_results demoServers "echo" Option.none).2.2 demoServer
      "boom" rfl (Or.inl rfl) rfl

/-- Helper for C10: every client operation preserves the cache invariant
(the cache list's contents are the concatenation of the active servers'
tool lists, and the cache address is a live heap cell below the
allocation frontier). -/
theorem mcpStep_inv (hp : ListHeap) (s : MCPState) (op : MCPOp)
    (h1 : cacheContents (hp, s) = ((s.activeServers.map Prod.snd).flatten))
    (h2 : s.cacheAddr < hp.next) :
    cacheContents (mcpStep (hp, s) op) =
        (((mcpStep (hp, s) op).2.activeServers.map Prod.snd).flatten) ∧
      (mcpStep (hp, s) op).2.cacheAddr < (mcpStep (hp, s) op).1.next := by
  cases op with
  | connect name tools =>
    by_cases hin : s.activeServers.any (fun p => p.1 = name) = true
    · simp only [mcpStep, connectSuccess, hin, if_pos]
      exact ⟨h1, h2⟩
    · simp only [mcpStep, connectSuccess, hin, Bool.false_eq_true, if_false,
        ListHeap.alloc, cacheContents]
      refine ⟨by simp, by simp⟩
  | connectNoop =>
    exact ⟨h1, h2⟩
  | getToolsMutate xs =>
    have hne : s.cacheAddr ≠ hp.next := by omega

    simp only [mcpStep, mcpGetTools, ListHeap.alloc, ListHeap.write,
      cacheContents] at *
    constructor
    · simp [hne, h1]
    · omega
  | cleanup =>
    simp only [mcpStep, mcpCleanup, ListHeap.write, cacheContents] at *
    constructor
    · simp
    · exact h2

/-- Helper for C10: the invariant holds after any operation sequence run
from any state satisfying it. -/
theorem mcpFoldl_inv (ops : List MCPOp) :
    ∀ hs : ListHeap × MCPState,
      cacheContents hs = ((hs.2.activeServers.map Prod.snd).flatten) →
      hs.2.cacheAddr < hs.1.next →
      cacheContents (ops.foldl mcpStep hs) =
          (((ops.foldl mcpStep hs).2.activeServers.map Prod.snd).flatten) ∧
        (ops.foldl mcpStep hs).2.cacheAddr < (ops.foldl mcpStep hs).1.next := by
  induction ops with
  | nil => intro hs h1 h2; exact ⟨h1, h2⟩
  | cons op rest ih =>
    intro hs h1 h2
    obtain ⟨hp, s⟩ := hs
    obtain ⟨h1s, h2s⟩ := mcpStep_inv hp s op h1 h2
    simpa [List.foldl_cons] using ih (mcpStep (hp, s) op) h1s h2s

/-- C10: for every sequence of tool-protocol client operations, the
combined tool cache holds exactly the concatenation of the tool lists of
the active servers; it is empty after cleanup; get_tools hands back a
fresh list object whose contents equal the cache's; and overwriting that
returned object never changes the client's cached tools. -/
theorem mcp_tool_cache (ops : List MCPOp) :
    cacheContents (mcpRun ops) =
        (((mcpRun ops).2.activeServers.map Prod.snd).flatten) ∧
    cacheContents (mcpRun (ops ++ [.cleanup])) = [] ∧
    ((mcpGetTools (mcpRun ops)).2.1.store (mcpGetTools (mcpRun ops)).1 =
      cacheContents (mcpRun ops)) ∧
    (∀ xs, cacheContents (mcpStep (mcpRun ops) (.getToolsMutate xs)) =
      cacheContents (mcpRun ops)) := by
  have hinit1 : cacheContents mcpInit =
      ((mcpInit.2.activeServers.map Prod.snd).flatten) := by
    simp [mcpInit, cacheContents]
  have hinit2 : mcpInit.2.cacheAddr < mcpInit.1.next := by
    simp [mcpInit]
  obtain ⟨h1, h2⟩ := mcpFoldl_inv ops mcpInit hinit1 hinit2
  rcases hrun : mcpRun ops with ⟨hp, s⟩
  rw [mcpRun] at hrun
  rw [hrun] at h1 h2
  have h2s : s.cacheAddr < hp.next := by simpa using h2
  refine ⟨h1, ?_, ?_, ?_⟩
  · have : mcpRun (ops ++ [MCPOp.cleanup]) = mcpStep (hp, s) .cleanup := by
      rw [mcpRun, List.foldl_append, hrun]
      rfl
    rw [this]
    simp [mcpStep, mcpCleanup, cacheContents, ListHeap.write]
  · simp [mcpGetTools, ListHeap.alloc, cacheContents]
  · intro xs
    have hne : s.cacheAddr ≠ hp.next := by omega

    simp [mcpStep, mcpGetTools, ListHeap.alloc, ListHeap.write,
      cacheContents, hne]

/-- Helper for C1: under an oracle whose every response carries tool
calls, the recursion ends in ProviderError from any starting depth. -/
theorem sendProviderRequest_alwaysTool (oracle : Nat → ProviderResp)
    (h : ∀ n, (oracle n).toolCallNames.isSome = true) :
    ∀ fuel depth, 10 - depth ≤ fuel →
      sendProviderRequest oracle true depth = .error .provider := by
  intro fuel
  induction fuel with
  | zero =>
    intro depth hd
    rw [sendProviderRequest]
    simp only [show 10 ≤ depth by omega, dite_true, dif_pos]
  | succ k ih =>
    intro depth hd
    by_cases hceil : 10 ≤ depth
    · rw [sendProviderRequest]
      simp only [hceil, dite_true, dif_pos]
    · rw [sendProviderRequest]
      obtain ⟨calls, hcalls⟩ := Option.isSome_iff_exists.mp (h depth)
      simp only [hceil, dif_neg, hcalls, if_true]
      exact ih (depth + 1) (by omega)

/-- C1: for every chat request whose provider responses keep requesting
tool calls, the tool-calling recursion starts at depth 0, is ceilinged at
10, and ends in ProviderError no matter how many further tool calls the
model requests. -/
theorem tool_loop_bounded (oracle : Nat → ProviderResp)
    (h : ∀ n, (oracle n).toolCallNames.isSome = true)
    (system userAssistant maxTokens : PyVal)
    (hv : validateInputs system userAssistant maxTokens = .ok ()) :
    sendProviderRequest oracle true 0 = .error .provider ∧
    chatWithProvider oracle true system userAssistant maxTokens =
      .error .provider := by
  have hmain := sendProviderRequest_alwaysTool oracle h 10 0 (by omega)
  refine ⟨hmain, ?_⟩
  rw [chatWithProvider, hv]
  exact hmain

/-- Witness for C1: the oracle that always requests another tool call,
with valid inputs, reaches the recursion ceiling. -/
theorem tool_loop_bounded_witness :
    sendProviderRequest alwaysToolOracle true 0 = .error .provider ∧
    chatWithProvider alwaysToolOracle true (.str "You are terse.")
      (.list [.str "Hello"]) (.int 4096) = .error .provider :=
  tool_loop_bounded alwaysToolOracle (fun _ => rfl) (.str "You are terse.")
    (.list [.str "Hello"]) (.int 4096) rfl

/-- C2: _validate_inputs is a pure function raising ChatConfigError for a
non-string system prompt, a non-list message argument, a message list with
a non-string element, or a max_tokens that is not a positive integer, and
raising nothing on a string prompt, a list of strings and a positive
integer. -/
theorem validate_inputs_spec (system userAssistant maxTokens : PyVal) :
    (system.isStr = false →
      validateInputs system userAssistant maxTokens = .error .chatConfig) ∧
    (userAssistant.isList = false →
      validateInputs system userAssistant maxTokens = .error .chatConfig) ∧
    (∀ xs, userAssistant = .list xs → (∃ x ∈ xs, x.isStr = false) →
      validateInputs system userAssistant maxTokens = .error .chatConfig) ∧
    ((∀ n : Int, maxTokens = .int n → n ≤ 0) →
      validateInputs system userAssistant maxTokens = .error .chatConfig) ∧
    (∀ s xs n, system = .str s → userAssistant = .list xs →
      xs.all PyVal.isStr = true → maxTokens = .int n → 0 < n →
      validateInputs system userAssistant maxTokens = .ok ()) := by
  refine ⟨?_, ?_, ?_, ?_, ?_⟩
  · intro hs
    simp [validateInputs, hs]
  · intro hl
    cases hs : system.isStr with
    | false => simp [validateInputs, hs]
    | true =>
      cases userAssistant <;> simp_all [validateInputs, PyVal.isList]
  · intro xs hxs hbad
    subst hxs
    cases hs : system.isStr with
    | false => simp [validateInputs, hs]
    | true =>
      have hall : xs.all PyVal.isStr = false := by
        rw [List.all_eq_false]
        obtain ⟨x, hmem, hx⟩ := hbad
        exact ⟨x, hmem, by simp [hx]⟩
      simp [validateInputs, hs, hall]
  · intro hmt
    cases hs : system.isStr with
    | false => simp [validateInputs, hs]
    | true =>
      cases userAssistant
      case list xs =>
        cases hall : xs.all PyVal.isStr with
        | false => simp [validateInputs, hs, hall]
        | true =>
          cases maxTokens
          case int n =>
            have hn := hmt n rfl
            simp [validateInputs, hs, hall, show ¬ (0 : Int) < n by omega]
          all_goals simp [validateInputs, hs, hall]
      all_goals simp [validateInputs, hs]
  · intro s xs n hsys hlist hall hmt hpos
    subst hsys; subst hlist; subst hmt
    simp [validateInputs, PyVal.isStr, hall, hpos]

/-- Witness for C2 at the test suite's inputs: a plain-string message
argument is rejected, max_tokens -1 is rejected, and the valid triple is
accepted. -/
theorem validate_inputs_spec_witness :
    validateInputs (.str "You are a helpful assistant")
        (.str "This should be a list, not a string") (.int 4096)
      = .error .chatConfig ∧
    validateInputs (.str "You are a helpful assistant")
        (.list [.str "Hello", .str "Hi there"]) (.int (-1))
      = .error .chatConfig ∧
    validateInputs (.str "You are a helpful assistant")
        (.list [.str "Hello", .str "Hi there"]) (.int 4096) = .ok () ∧
    validateInputs (.int 7) (.list [.str "Hello"]) (.int 4096)
      = .error .chatConfig ∧
    validateInputs (.str "s") (.list [.str "Hello", .int 3]) (.int 4096)
      = .error .chatConfig := by
  refine ⟨?_, ?_, ?_, ?_, ?_⟩
  · exact (validate_inputs_spec (.str "You are a helpful assistant")
      (.str "This should be a list, not a string") (.int 4096)).2.1 rfl
  · exact (validate_inputs_spec (.str "You are a helpful assistant")
      (.list [.str "Hello", .str "Hi there"]) (.int (-1))).2.2.2.1
      (fun n hn => by injection hn with hn; omega)
  · exact (validate_inputs_spec (.str "You are a helpful assistant")
      (.list [.str "Hello", .str "Hi there"]) (.int 4096)).2.2.2.2
      "You are a helpful assistant" [.str "Hello", .str "Hi there"] 4096
      rfl rfl rfl rfl (by omega)
  · exact (validate_inputs_spec (.int 7) (.list [.str "Hello"])
      (.int 4096)).1 rfl
  · exact (validate_inputs_spec (.str "s") (.list [.str "Hello", .int 3])
      (.int 4096)).2.2.1 [.str "Hello", .int 3] rfl
      ⟨.int 3, by simp, rfl⟩

/-- C3: the Chatbot core's top-level chat operation never raises to its
caller: whatever the delegated chat path does -- validation failure,
provider failure, recursion-ceiling failure or success -- the result is an
ordinary returned string, and any error along the path is converted into
the string naming its error kind. -/
theorem chat_never_raises (oracle : Nat → ProviderResp) (hasToolClient : Bool)
    (system userAssistant maxTokens : PyVal) :
    (∃ s, chatOp oracle hasToolClient system userAssistant maxTokens
      = .ok s) ∧
    (∀ e, chatWithProvider oracle hasToolClient system userAssistant maxTokens
        = .error e →
      chatOp oracle hasToolClient system userAssistant maxTokens
        = .ok (chatErrKindName e)) := by
  constructor
  · rw [chatOp]
    rcases chatWithProvider oracle hasToolClient system userAssistant
        maxTokens with e | ⟨content, tokens⟩
    · exact ⟨chatErrKindName e, rfl⟩
    · exact ⟨content, rfl⟩
  · intro e he
    rw [chatOp, he]

/-- Witness for C3: with a non-string system prompt the chat path fails
validation, and chat still returns a string (the error kind's name). -/
theorem chat_never_raises_witness :
    chatOp alwaysToolOracle true (.int 0) (.list [.str "Hello"]) (.int 64)
      = .ok "ChatConfigError" :=
  (chat_never_raises alwaysToolOracle true (.int 0) (.list [.str "Hello"])
    (.int 64)).2 .chatConfig rfl

/-- C8: Chatbot construction succeeds with a default configuration when
the persisted configuration file is absent or holds malformed JSON, and
after any successful load every read accessor falls back to the
documented default for a field absent from the loaded record: model
"gpt-3.5-turbo", temperature 0.0, provider "openai", max_tokens 4096. -/
theorem chatbot_config_defaults (record : List (String × PyVal)) :
    createChatbot .absent Option.none = .ok { config := [] } ∧
    createChatbot .malformedJSON Option.none = .ok { config := [] } ∧
    (record.lookup "model" = Option.none →
      ChatbotState.model { config := record } = .str "gpt-3.5-turbo") ∧
    (record.lookup "temperature" = Option.none →
      ChatbotState.temperature { config := record } = .float 0) ∧
    (record.lookup "provider" = Option.none →
      ChatbotState.provider { config := record } = .str "openai") ∧
    (record.lookup "max_tokens" = Option.none →
      ChatbotState.maxTokens { config := record } = .int 4096) := by
  refine ⟨rfl, rfl, ?_, ?_, ?_, ?_⟩
  · intro h
    simp [ChatbotState.model, cfgGet, h]
  · intro h
    simp [ChatbotState.temperature, cfgGet, h]
  · intro h
    simp [ChatbotState.provider, cfgGet, h]
  · intro h
    simp [ChatbotState.maxTokens, cfgGet, h]

/-- Witness for C8 on a record that sets only the system message: every
accessed field falls back to its default. -/
theorem chatbot_config_defaults_witness :
    ChatbotState.model { config := [("system_message", .str "Be terse.")] }
        = .str "gpt-3.5-turbo" ∧
    ChatbotState.temperature
        { config := [("system_message", .str "Be terse.")] } = .float 0 ∧
    ChatbotState.provider { config := [("system_message", .str "Be terse.")] }
        = .str "openai" ∧
    ChatbotState.maxTokens { config := [("system_message", .str "Be terse.")] }
        = .int 4096 := by
  refine ⟨?_, ?_, ?_, ?_⟩
  · exact (chatbot_config_defaults
      [("system_message", .str "Be terse.")]).2.2.1 rfl
  · exact (chatbot_config_defaults
      [("system_message", .str "Be terse.")]).2.2.2.1 rfl
  · exact (chatbot_config_defaults
      [("system_message", .str "Be terse.")]).2.2.2.2.1 rfl
  · exact (chatbot_config_defaults
      [("system_message", .str "Be terse.")]).2.2.2.2.2 rfl
